import Mathlib

/-
Verification development for the tempo-rs ephemeral-note service.

Shallow embedding conventions:
- Bytes are modelled as `Nat` (values 0..255 in practice); text payloads are
  lists of bytes (`List Nat`).  Rust `String::from_utf8` is treated as the
  identity on these byte lists (all inputs exercised here are ASCII), and the
  `chars()` iteration in the List decoder is modelled as byte iteration.
- `u64` / `usize` integers are modelled as `Nat`; the decimal encodings in
  play never overflow, so no modular reduction is needed.
- Fallible Rust paths return `Option` / `Except`; a Rust panic (the
  `expect` in the cleanup task, the `todo` on Quit, the invalid-command
  branch of `From<u8>`) is modelled as `none` / a dedicated outcome.
- The `tokio` clock is modelled by explicit `Nat` timestamps; `Instant`
  subtraction saturates at zero, matching `Nat` subtraction.
-/

/-! ## Protocol constants (src/common/src/protocol.rs) -/

def CREATE_BYTE : Nat := 43
def READ_BYTE : Nat := 36
def QUIT_BYTE : Nat := 45
def LIST_BYTE : Nat := 37
def DISCONNECT_BYTE : Nat := 33
def ID_BYTE : Nat := 35

def CR : Nat := 13

def LF : Nat := 10

/-- `Command` from src/common/src/protocol.rs: the decoded content of a frame.
Text is a byte list, `ClientID` is `Nat`. -/
inductive Command where
  | Create (text : List Nat)
  | List (entries : List (List Nat))
  | Id (n : Nat)
  | Disconnect (n : Nat)
  | Read
  | Quit
deriving DecidableEq

/-- `FrameParseError` from src/common/src/lib.rs. -/
inductive FrameParseError where
  | Incomplete
  | Invalid (b : Nat)
deriving DecidableEq

/-! ## Buffer scanning helpers (src/common/src/lib.rs: get_u8, get_line) -/

/-- `get_u8`: return the byte at the cursor and advance, or `Incomplete`
when nothing remains.  The cursor is an explicit position into the buffer. -/
def get_u8 (buf : List Nat) (pos : Nat) : Except FrameParseError (Nat × Nat) :=
  if pos < buf.length then Except.ok (buf.getD pos 0, pos + 1)
  else Except.error FrameParseError.Incomplete

/-- Structural rendering of `get_line`'s index scan: split a byte list at the
first adjacent CR LF pair, returning the bytes before the pair and the bytes
after it.  The source scans indices `start..len-1` testing `buf[i] == CR`
and `buf[i+1] == LF`, which inspects exactly every adjacent pair of the
suffix in order. -/
def splitCRLF : List Nat → Option (List Nat × List Nat)
  | [] => none
  | [_] => none
  | c :: d :: rest =>
    if c == CR && d == LF then some ([], rest)
    else
      match splitCRLF (d :: rest) with
      | some (line, rem) => some (c :: line, rem)
      | none => none

/-- `get_line`: find the line starting at `pos`, returning its bytes
(terminator excluded) and the cursor position just after the LF; otherwise
`Incomplete`. -/
def get_line (buf : List Nat) (pos : Nat) : Except FrameParseError (List Nat × Nat) :=
  match splitCRLF (buf.drop pos) with
  | some (line, _) => Except.ok (line, pos + line.length + 2)
  | none => Except.error FrameParseError.Incomplete

/-! ## Frame codec (src/common/src/protocol.rs: Frame::check, Frame::parse) -/

/-- `Frame::check`: scan the buffer for one complete frame; on success return
the cursor position after the frame (the byte count the caller will drop).
The four line-bodied tags (Create, List, Disconnect, Id) all run `get_line`;
Read and Quit succeed on the tag byte alone; any other tag is `Invalid`. -/
def check (buffer : List Nat) : Except FrameParseError Nat :=
  match get_u8 buffer 0 with
  | Except.error e => Except.error e
  | Except.ok (b, pos) =>
    if b == CREATE_BYTE || b == LIST_BYTE || b == DISCONNECT_BYTE || b == ID_BYTE then
      match get_line buffer pos with
      | Except.ok (_, pos') => Except.ok pos'
      | Except.error e => Except.error e
    else if b == READ_BYTE || b == QUIT_BYTE then Except.ok pos
    else Except.error (FrameParseError.Invalid b)

def isDigit (c : Nat) : Bool := 48 ≤ c && c ≤ 57

/-- Rust `str::parse::<u64>` restricted to what the encoder emits: a
non-empty all-digit string; anything else is a parse error (`none`). -/
def parseDecimal (s : List Nat) : Option Nat :=
  if s.isEmpty || !(s.all isDigit) then none
  else some (s.foldl (fun a c => a * 10 + (c - 48)) 0)

/-- The List-body decode loop of `Frame::parse`: repeatedly accumulate
decimal digits into `lenAcc`; on `#` parse the accumulated length (empty
digit string is a parse error) and take exactly that many following bytes
as one entry (running out is an invalid-frame error); any other byte is an
invalid-frame error.  Digits left in `lenAcc` when the line ends are
silently discarded, as in the source. -/
def parseEntries : List Nat → List Nat → List (List Nat) → Option (List (List Nat))
  | [], _, notes => some notes
  | c :: rest, lenAcc, notes =>
    if c == 35 then
      match parseDecimal lenAcc with
      | some n =>
        if n ≤ rest.length then
          parseEntries (rest.drop n) [] (notes ++ [rest.take n])
        else none
      | none => none
    else if isDigit c then parseEntries rest (lenAcc ++ [c]) notes
    else none
termination_by l _ _ => l.length
decreasing_by
  all_goals simp
  omega

/-- `Frame::parse`: materialize the Command from a buffer that `check`
accepted.  All parse-side failures (bad integer, malformed List body,
missing line) collapse to `none`. -/
def parse (buffer : List Nat) : Option Command :=
  match get_u8 buffer 0 with
  | Except.error _ => none
  | Except.ok (b, pos) =>
    if b == CREATE_BYTE then
      match get_line buffer pos with
      | Except.ok (line, _) => some (Command.Create line)
      | Except.error _ => none
    else if b == LIST_BYTE then
      match get_line buffer pos with
      | Except.ok (line, _) => (parseEntries line [] []).map Command.List
      | Except.error _ => none
    else if b == READ_BYTE then some Command.Read
    else if b == QUIT_BYTE then some Command.Quit
    else if b == DISCONNECT_BYTE then
      match get_line buffer pos with
      | Except.ok (line, _) => (parseDecimal line).map Command.Disconnect
      | Except.error _ => none
    else if b == ID_BYTE then
      match get_line buffer pos with
      | Except.ok (line, _) => (parseDecimal line).map Command.Id
      | Except.error _ => none
    else none

/-- `impl From<u8> for Command` (src/common/src/protocol.rs).  The source
uses a `match` whose default arm is a runtime abort ("invalid command");
that abort is modelled as `none`, every recognized tag as `some`. -/
def command_from_u8 (byte : Nat) : Option Command :=
  if byte == CREATE_BYTE then some (Command.Create [])
  else if byte == LIST_BYTE then some (Command.List [])
  else if byte == READ_BYTE then some Command.Read
  else if byte == QUIT_BYTE then some Command.Quit
  else if byte == DISCONNECT_BYTE then some (Command.Disconnect 0)
  else if byte == ID_BYTE then some (Command.Id 0)
  else none

/-! ## Connection (src/common/src/lib.rs) -/

/-- Decimal ASCII rendering of a natural number, as produced by Rust
`to_string` on an unsigned integer. -/
def natToDecimal (n : Nat) : List Nat := (Nat.toDigits 10 n).map Char.toNat

/-- The fold in `write_frame`'s List branch: for each entry append
`<decimal length># <entry bytes>` (no separator between entries). -/
def listBody (notes : List (List Nat)) : List Nat :=
  notes.foldl (fun f note => f ++ natToDecimal note.length ++ [35] ++ note) []

/-- `Connection::write_frame`: the exact byte sequence written to the
transport for one frame.  Note the Create branch writes the tag byte and
the raw body only — it appends no CR LF terminator (unlike the List,
Disconnect and Id branches). -/
def write_frame : Command → List Nat
  | Command.Create body => CREATE_BYTE :: body
  | Command.List notes => LIST_BYTE :: (listBody notes ++ [CR, LF])
  | Command.Read => [READ_BYTE]
  | Command.Quit => [QUIT_BYTE]
  | Command.Disconnect i => DISCONNECT_BYTE :: (natToDecimal i ++ [CR, LF])
  | Command.Id i => ID_BYTE :: (natToDecimal i ++ [CR, LF])

/-- Result of `Connection::parse_frame` on the current buffer. -/
inductive ParseFrameResult where
  | frame (c : Command) (len : Nat)
  | needMore
  | fail
deriving DecidableEq

/-- `Connection::parse_frame`: run `check`; on success run `parse` and
report the frame together with the consumed byte count; `Incomplete` maps
to "no frame yet"; an invalid tag or a parse failure is an error. -/
def parse_frame (buffer : List Nat) : ParseFrameResult :=
  match check buffer with
  | Except.ok len =>
    match parse buffer with
    | some c => ParseFrameResult.frame c len
    | none => ParseFrameResult.fail
  | Except.error FrameParseError.Incomplete => ParseFrameResult.needMore
  | Except.error (FrameParseError.Invalid _) => ParseFrameResult.fail

/-- Outcome of `Connection::read_frame`. -/
inductive ReadFrameResult where
  | frame (c : Command)
  | noFrame
  | reset
  | fail
  | starved
deriving DecidableEq

/-- `Connection::read_frame`: loop parsing the accumulation buffer; when
incomplete, take the next transport read.  The transport is modelled as the
list of successive `read_buf` results; an empty chunk is a zero-byte read
(end of stream), and an exhausted list means the transport never returns
(the call would stay suspended: `starved`).  On a zero-byte read, an empty
buffer is a clean end of stream (`noFrame`) and a non-empty buffer is a
connection-reset error (`reset`). -/
def read_frame : List Nat → List (List Nat) → ReadFrameResult
  | buffer, reads =>
    match parse_frame buffer with
    | ParseFrameResult.frame c _ => ReadFrameResult.frame c
    | ParseFrameResult.fail => ReadFrameResult.fail
    | ParseFrameResult.needMore =>
      match reads with
      | [] => ReadFrameResult.starved
      | chunk :: rest =>
        if chunk = [] then
          if buffer = [] then ReadFrameResult.noFrame else ReadFrameResult.reset
        else read_frame (buffer ++ chunk) rest

/-! ## Note registry (src/server/src/lib.rs, src/common/src/lib.rs) -/

/-- `Note` from src/common/src/lib.rs; `created_at` is a `Nat` timestamp. -/
structure Note where
  id : Nat
  body : List Nat
  created_at : Nat
deriving DecidableEq

/-- `Note::elapsed`, at an explicit current time.  `Instant` arithmetic
saturates at zero, as `Nat` subtraction does. -/
def Note.elapsed (n : Note) (now : Nat) : Nat := now - n.created_at

/-- `NOTE_TIMEOUT` from src/common/src/lib.rs: 60 time units (seconds). -/
def NOTE_TIMEOUT : Nat := 60

/-- `BTreeMap::insert`, on an association list kept sorted by key in
strictly ascending order (the order a `BTreeMap` iterates in). -/
def btreeInsert {α : Type} (k : Nat) (v : α) : List (Nat × α) → List (Nat × α)
  | [] => [(k, v)]
  | (k', v') :: rest =>
    if k < k' then (k, v) :: (k', v') :: rest
    else if k = k' then (k, v) :: rest
    else (k', v') :: btreeInsert k v rest

/-- `BTreeMap::remove` (keys are unique, so removing the first match
removes the key). -/
def btreeRemove {α : Type} (k : Nat) : List (Nat × α) → List (Nat × α)
  | [] => []
  | (k', v') :: rest => if k = k' then rest else (k', v') :: btreeRemove k rest

/-- `BTreeMap::get`. -/
def btreeGet {α : Type} (k : Nat) : List (Nat × α) → Option α
  | [] => none
  | (k', v') :: rest => if k = k' then some v' else btreeGet k rest

/-- `notes.keys().last()`: the last key in ascending iteration order, i.e.
the current maximum key of the map. -/
def btreeLastKey {α : Type} (m : List (Nat × α)) : Option Nat :=
  (m.map Prod.fst).getLast?

/-- `NotesHandler::create_note`: the new id is derived from the current
maximum key (`notes.keys().last().map_or(0, k+1)`), the note is inserted,
and the id is also sent to the cleanup queue (returned here as the first
component; the channel send is modelled as always succeeding). -/
def create_note (notes : List (Nat × Note)) (body : List Nat) (now : Nat) :
    Nat × List (Nat × Note) :=
  let id := match btreeLastKey notes with
    | none => 0
    | some k => k + 1
  (id, btreeInsert id (Note.mk id body now) notes)

/-! ## Eviction scheduler (src/server/src/lib.rs: NotesServer::cleanup) -/

/-- The inner wait loop of `cleanup`: while the note's elapsed time is
below `NOTE_TIMEOUT`, sleep and re-check at the next wake time taken from
the schedule (wake times are left unconstrained, so early and spurious
wakeups are covered).  Returns the time at which the loop exits, or `none`
when the schedule runs out while still early (the task stays asleep). -/
def waitLoop (created_at : Nat) (now : Nat) (wakes : List Nat) : Option Nat :=
  if now - created_at < NOTE_TIMEOUT then
    match wakes with
    | [] => none
    | w :: rest => waitLoop created_at w rest
  else some now

/-- `NotesServer::cleanup`: drain the queue of note ids in order.  For each
id: look up the note (a missing note is the `expect` abort, modelled as
`none`), run the TTL wait loop, then remove the note from the map.  Each id
is given one `(start time, wake schedule)` pair; returns the removal events
`(id, created_at, removal time)` in processing order together with the
final map. -/
def cleanup : List Nat → List (Nat × Note) → List (Nat × List Nat) →
    Option (List (Nat × Nat × Nat) × List (Nat × Note))
  | [], notes, _ => some ([], notes)
  | id :: q, notes, scheds =>
    match scheds with
    | [] => none
    | (start, ws) :: scheds' =>
      match btreeGet id notes with
      | none => none
      | some note =>
        match waitLoop note.created_at start ws with
        | none => none
        | some t =>
          match cleanup q (btreeRemove id notes) scheds' with
          | none => none
          | some (evs, m') => some ((id, note.created_at, t) :: evs, m')

/-! ## Session manager (src/server/src/lib.rs) -/

/-- `HashMap::insert`: replace the value when the key exists, otherwise
append the new binding (keys stay unique). -/
def hashInsert {α : Type} (k : Nat) (v : α) : List (Nat × α) → List (Nat × α)
  | [] => [(k, v)]
  | (k', v') :: rest =>
    if k = k' then (k, v) :: rest else (k', v') :: hashInsert k v rest

/-- `HashMap::remove` by key. -/
def hashRemove {α : Type} (k : Nat) : List (Nat × α) → List (Nat × α)
  | [] => []
  | (k', v') :: rest => if k = k' then rest else (k', v') :: hashRemove k rest

/-- `NotesServer::handle_connection`: the new client id is the current
session-table size (`client_handlers.len()`), and the spawned handler's
handle is recorded under that id. -/
def handle_connection {α : Type} (client_handlers : List (Nat × α)) (handle : α) :
    Nat × List (Nat × α) :=
  let id := client_handlers.length
  (id, hashInsert id handle client_handlers)

/-- `NotesServer::handle_disconnects`: drain the disconnect queue, removing
each received id's entry from the session table. -/
def handle_disconnects {α : Type} (msgs : List Nat) (client_handlers : List (Nat × α)) :
    List (Nat × α) :=
  msgs.foldl (fun t i => hashRemove i t) client_handlers

/-! ## Session handler loop (src/server/src/lib.rs: NotesHandler::run) -/

/-- One `read_frame` outcome as seen by the command loop in `run`. -/
inductive ReadEvent where
  | noFrame
  | frame (c : Command)
  | readErr
deriving DecidableEq

/-- Control outcome of one iteration of the loop in `run`:
`continueLoop` re-enters the loop, `returnOk` / `returnErr` leave `run`,
`panicked` is the `todo` abort on Quit. -/
inductive Control where
  | continueLoop
  | returnOk
  | returnErr
  | panicked
deriving DecidableEq

/-- Everything one loop iteration of `run` produces. -/
structure StepOut where
  control : Control
  notes : List (Nat × Note)
  cleanupMsg : Option Nat
  disconnectMsg : Option Nat
  reply : Option Command
deriving DecidableEq

/-- One iteration of the command loop in `NotesHandler::run` for the
session whose own client id is `sessionId`.  A read error propagates out
of `run`; a "no frame" result matches no arm of the `if let` (which has
no else branch), so the loop simply re-enters; a decoded command is
dispatched: Create inserts into the registry and publishes the new id to
the cleanup queue; Read replies with the List of all current note bodies
in registry order; Disconnect enqueues the id carried in the command
(which shadows `sessionId` in the source) and returns; Quit aborts; any
other command is a silent no-op. -/
def runStep (sessionId : Nat) (notes : List (Nat × Note)) (ev : ReadEvent) (now : Nat) :
    StepOut :=
  match ev with
  | ReadEvent.readErr => StepOut.mk Control.returnErr notes none none none
  | ReadEvent.noFrame => StepOut.mk Control.continueLoop notes none none none
  | ReadEvent.frame c =>
    match c with
    | Command.Create body =>
      let r := create_note notes body now
      StepOut.mk Control.continueLoop r.2 (some r.1) none none
    | Command.Read =>
      StepOut.mk Control.continueLoop notes none none
        (some (Command.List (notes.map (fun p => p.2.body))))
    | Command.Disconnect j => StepOut.mk Control.returnOk notes none (some j) none
    | Command.Quit => StepOut.mk Control.panicked notes none none none
    | _ => StepOut.mk Control.continueLoop notes none none none

/-! ## Helper lemmas -/

/-- The TTL wait loop of the eviction scheduler only ever exits at a time at
least `NOTE_TIMEOUT` after the note's creation, whatever the wake schedule
(early or spurious wakeups included). -/
theorem waitLoop_ttl (created_at : Nat) :
    ∀ (wakes : List Nat) (now t : Nat), waitLoop created_at now wakes = some t →
      NOTE_TIMEOUT ≤ t - created_at := by
  intro wakes
  induction wakes with
  | nil =>
    intro now t h
    unfold waitLoop at h
    by_cases hc : now - created_at < NOTE_TIMEOUT
    · simp [hc] at h
    · simp [hc] at h
      omega
  | cons w rest ih =>
    intro now t h
    unfold waitLoop at h
    by_cases hc : now - created_at < NOTE_TIMEOUT
    · simp [hc] at h
      exact ih w t h
    · simp [hc] at h
      omega

/-! ## Claim theorems -/

/-- C1: the claim says each `create_note` assigns an identifier strictly
greater than every identifier assigned earlier, even after eviction.  The
code instead derives the id from the current maximum key: create a note
(id 0), evict it, create again — the second create reassigns id 0 rather
than an id greater than 0. -/
theorem c1_note_id_reused_after_eviction :
    (create_note [] [97] 0).1 = 0 ∧
    (create_note (btreeRemove 0 (create_note [] [97] 0).2) [98] 1).1 = 0 := by
  exact ⟨rfl, rfl⟩

/-- C2: the claim says encoding any CRLF-free Command with `write_frame`
and decoding with `check` + `parse` yields the Command back.  For
`Create "a"` the encoder emits `[43, 97]` with no CRLF terminator, so the
decoder reports an incomplete frame and never produces a Command. -/
theorem c2_create_roundtrip_fails :
    write_frame (Command.Create [97]) = [43, 97] ∧
    parse_frame [43, 97] = ParseFrameResult.needMore := by
  exact ⟨rfl, rfl⟩

/-- C3: the claim says a "no frame" read result (clean stream end) makes
the command loop end, `run` returning without a Disconnect notification.
The loop body on `noFrame` instead continues the loop (the `if let` has no
else branch), re-entering `read_frame`; no Disconnect is enqueued, but
`run` never returns on this path. -/
theorem c3_clean_eof_continues_loop :
    runStep 7 [] ReadEvent.noFrame 0 =
      StepOut.mk Control.continueLoop [] none none none ∧
    (runStep 7 [] ReadEvent.noFrame 0).control ≠ Control.returnOk := by
  exact ⟨rfl, by decide⟩

/-- C4: the claim says each accepted connection receives an identifier
distinct from every identifier previously assigned.  The code assigns
`client_handlers.len()`: after accepting ids 0 and 1 and reaping id 0, the
next accepted connection also receives id 1, colliding with the still
recorded session 1. -/
theorem c4_client_id_reused_after_reap :
    (handle_connection ([] : List (Nat × Nat)) 100).1 = 0 ∧
    (handle_connection (handle_connection ([] : List (Nat × Nat)) 100).2 101).1 = 1 ∧
    (handle_connection
        (hashRemove 0
          (handle_connection (handle_connection ([] : List (Nat × Nat)) 100).2 101).2)
        102).1 = 1 := by
  exact ⟨rfl, rfl, rfl⟩

/-- C5: the claim says encoding `Create(text)` produces tag + raw text +
CRLF.  `write_frame`'s Create branch emits the tag byte and the raw text
only — the terminating CRLF is absent. -/
theorem c5_create_encoding_lacks_crlf :
    write_frame (Command.Create [104, 105]) = [43, 104, 105] ∧
    write_frame (Command.Create [104, 105]) ≠ [43, 104, 105, 13, 10] := by
  exact ⟨rfl, by decide⟩

/-- C6: the claim says `check` succeeds on the complete wire bytes of any
Command.  On the complete bytes `write_frame` produces for `Create "x"`,
`check` reports `Incomplete` (the CRLF its `get_line` requires was never
written), so it can never succeed, and `parse` is never reached. -/
theorem c6_check_incomplete_on_complete_create_frame :
    check (write_frame (Command.Create [120])) =
      Except.error FrameParseError.Incomplete := by
  exact rfl

/-- C7: in `read_frame`, when the transport returns zero new bytes (an
empty chunk) while no complete frame is buffered, an empty accumulation
buffer yields the clean "no frame" result and a non-empty buffer yields
the connection-reset error — a truncated frame is never silently
dropped. -/
theorem c7_zero_byte_read_eof_or_reset (buffer : List Nat) (rest : List (List Nat))
    (h : parse_frame buffer = ParseFrameResult.needMore) :
    read_frame buffer ([] :: rest) =
      if buffer = [] then ReadFrameResult.noFrame else ReadFrameResult.reset := by
  rw [read_frame, h]
  rfl

/-- Witness for C7: concrete zero-byte reads on an empty buffer (clean end
of stream) and on a buffer holding a truncated Id frame (reset error). -/
theorem c7_zero_byte_read_witness :
    read_frame [] [[]] = ReadFrameResult.noFrame ∧
    read_frame [35] [[]] = ReadFrameResult.reset := by
  constructor
  · have h := c7_zero_byte_read_eof_or_reset [] [] (by rfl)
    simpa using h
  · have h := c7_zero_byte_read_eof_or_reset [35] [] (by rfl)
    simpa using h

/-- C8: whenever the eviction scheduler runs to completion, the notes it
removes are exactly the queued ids in strict FIFO (queue) order — each
processed to completion before the next is dequeued — and every removal
happens at a time at least `NOTE_TIMEOUT` (60 time units) after the note's
`created_at`, the elapsed time being re-checked after every wake. -/
theorem c8_cleanup_fifo_and_ttl :
    ∀ (q : List Nat) (m : List (Nat × Note)) (scheds : List (Nat × List Nat))
      (evs : List (Nat × Nat × Nat)) (m' : List (Nat × Note)),
      cleanup q m scheds = some (evs, m') →
      evs.map (fun e => e.1) = q ∧ ∀ e ∈ evs, NOTE_TIMEOUT ≤ e.2.2 - e.2.1 := by
  intro q
  induction q with
  | nil =>
    intro m scheds evs m' h
    simp only [cleanup, Option.some.injEq, Prod.mk.injEq] at h
    obtain ⟨h1, h2⟩ := h
    subst h1
    simp
  | cons id q ih =>
    intro m scheds evs m' h
    rcases scheds with _ | ⟨⟨start, ws⟩, scheds'⟩
    · simp [cleanup] at h
    · simp only [cleanup] at h
      cases hg : btreeGet id m with
      | none =>
        simp only [hg] at h
        exact Option.noConfusion h
      | some note =>
        simp only [hg] at h
        cases hw : waitLoop note.created_at start ws with
        | none =>
          simp only [hw] at h
          exact Option.noConfusion h
        | some t =>
          simp only [hw] at h
          cases hc : cleanup q (btreeRemove id m) scheds' with
          | none =>
            simp only [hc] at h
            exact Option.noConfusion h
          | some p =>
            obtain ⟨evs0, m0⟩ := p
            simp only [hc, Option.some.injEq, Prod.mk.injEq] at h
            obtain ⟨h1, h2⟩ := h
            subst h1
            obtain ⟨ih1, ih2⟩ := ih _ _ _ _ hc
            constructor
            · simp [ih1]
            · intro e he
              rcases List.mem_cons.mp he with he1 | he2
              · subst he1
                exact waitLoop_ttl note.created_at ws start t hw
              · exact ih2 e he2

/-- Witness for C8: one note with id 0 created at time 0; the scheduler's
first elapsed check happens at time 100, so the wait loop exits at once and
the note is removed at time 100, 100 − 0 ≥ 60. -/
theorem c8_cleanup_witness :
    (([((0 : Nat), (0 : Nat), (100 : Nat))]).map (fun e => e.1) = [0]) ∧
    (∀ e ∈ [((0 : Nat), (0 : Nat), (100 : Nat))], NOTE_TIMEOUT ≤ e.2.2 - e.2.1) :=
  c8_cleanup_fifo_and_ttl [0] [(0, Note.mk 0 [97] 0)] [(100, [])] [(0, 0, 100)] [] (by rfl)

/-- C9: the Disconnect branch of the command loop enqueues the integer
carried inside the Disconnect command — not the handling session's own
client id, with no equality check between the two — and the reaper removes
exactly that entry.  Concretely, session 0 handling `Disconnect 1` on the
table {0, 1} removes the entry of session 1, a different session. -/
theorem c9_disconnect_uses_payload_id :
    (∀ (sessionId j now : Nat) (notes : List (Nat × Note)),
        (runStep sessionId notes (ReadEvent.frame (Command.Disconnect j)) now).disconnectMsg
            = some j ∧
        (runStep sessionId notes (ReadEvent.frame (Command.Disconnect j)) now).control
            = Control.returnOk) ∧
    handle_disconnects
        [(runStep 0 [] (ReadEvent.frame (Command.Disconnect 1)) 0).disconnectMsg.getD 99]
        [((0 : Nat), (10 : Nat)), (1, 11)] = [(0, 10)] := by
  constructor
  · intro sessionId j now notes
    exact ⟨rfl, rfl⟩
  · rfl

set_option maxRecDepth 4096 in
/-- C10: the byte-to-Command conversion is a partial function: it aborts
(modelled as `none`) exactly on the bytes that are not one of the six
recognized tag bytes, and returns a Command on those six. -/
theorem c10_from_u8_partial :
    ∀ b : Fin 256, command_from_u8 b.val = none ↔
      (b.val ≠ CREATE_BYTE ∧ b.val ≠ LIST_BYTE ∧ b.val ≠ READ_BYTE ∧
       b.val ≠ QUIT_BYTE ∧ b.val ≠ DISCONNECT_BYTE ∧ b.val ≠ ID_BYTE) := by
  decide
